import Mathlib

/-!
Shallow embedding of the SP_TO_TXT background batch-transcription engine:
`src/file_queue_processor.py` (FileQueueProcessor) and
`src/fast_whisper_service.py` (FastWhisperService).

Pure data and control flow are translated directly.  External effects are
passed in as explicit parameters that record what the external call
returned: the filesystem (`FileSystem`), the audio converter result, the
whisper inference result, and wall-clock durations (`Rat` seconds).
Writes to disk are returned as values (`List String` of directories the
call created, `OutputFile` for a written transcription file).
-/

namespace SpToTxt

/-- The `self.stats` dictionary initialised in `FileQueueProcessor.__init__`:
counters, accumulated processing time, the currently processed file name
(`None` when idle) and the cached queue size. -/
structure Stats where
  total_processed : Nat
  successful_processed : Nat
  failed_processed : Nat
  total_time : Rat
  current_file : Option String
  queue_size : Nat
deriving DecidableEq

/-- One queue entry as built by `add_directory` / `add_file`:
`{'file_path': ..., 'output_dir': ..., 'added_at': ...}`. -/
structure WorkItem where
  file_path : String
  output_dir : String
  added_at : Rat
deriving DecidableEq

/-- The mutable state of a `FileQueueProcessor`: the FIFO queue
(head = oldest item, the one `queue.get` returns next), the
`is_running` flag and the statistics dictionary. -/
structure ProcessorState where
  queue : List WorkItem
  is_running : Bool
  stats : Stats
deriving DecidableEq

/-- Statistics fields at construction time (`__init__`). -/
def initStats : Stats :=
  { total_processed := 0
    successful_processed := 0
    failed_processed := 0
    total_time := 0
    current_file := none
    queue_size := 0 }

/-- A freshly constructed `FileQueueProcessor`: empty queue, not running. -/
def initState : ProcessorState :=
  { queue := [], is_running := false, stats := initStats }

/-- Default for `output_dir` when the caller passes none:
`os.getenv('OUTPUT_DIR', './output')` with the environment unset. -/
def default_output_dir : String := "./output"

/-- The `self.supported_extensions` set from `__init__`. -/
def supported_extensions : List String :=
  [".ogg", ".m4a", ".wav", ".mp3", ".flac", ".aac", ".mp4"]

/-- POSIX `os.path.join(root, name)` for a simple relative name. -/
def osPathJoin (root name : String) : String := root ++ "/" ++ name

/-- Python `str.strip()` with no argument: remove leading and trailing
whitespace characters. -/
def pyStrip (s : String) : String :=
  ((s.data.dropWhile Char.isWhitespace).reverse.dropWhile Char.isWhitespace).reverse.asString

/-- Python `str.lower()`: lower-case every character (the extensions
involved are ASCII). -/
def pyLower (s : String) : String := (s.data.map Char.toLower).asString

/-- POSIX `os.path.basename`: the part after the last slash. -/
def osPathBasename (p : String) : String :=
  ((p.data.reverse.takeWhile (fun c => c ≠ '/')).reverse).asString

/-- Python `pathlib.Path(name).suffix` on a bare file name: `name[i:]` where
`i` is the index of the last dot, provided `0 < i < len - 1`; otherwise the
empty string. -/
def pathSuffix (name : String) : String :=
  let rev := name.data.reverse
  let pre := rev.takeWhile (fun c => c ≠ '.')
  if 0 < pre.length ∧ pre.length + 1 < rev.length then
    ('.' :: pre.reverse).asString
  else
    ""

/-- Python `os.path.splitext(name)[0]` on a bare file name (no slash):
everything before the last dot, except that a name whose characters before
the last dot are all dots (e.g. `.bashrc`, `..a`) is not split. -/
def splitextBase (name : String) : String :=
  let cs := name.data
  let rev := cs.reverse
  let after := rev.takeWhile (fun c => c ≠ '.')
  if after.length = rev.length then name
  else
    let pre := cs.take (rev.length - after.length - 1)
    if pre.all (fun c => c = '.') then name else pre.asString

/-- One regular file met during `os.walk`: the directory it was reported
under and its bare name. -/
structure FileEntry where
  root : String
  name : String
deriving DecidableEq

/-- The filesystem as the engine observes it: `os.path.exists` and the
files produced by `os.walk` on a root, in traversal order. -/
structure FileSystem where
  pathExists : String → Bool
  walk : String → List FileEntry

/-- `FileQueueProcessor._find_audio_files`: keep, in walk order, every file
whose `Path(file).suffix.lower()` lies in `supported_extensions`, returning
`os.path.join(root, file)` for each. -/
def find_audio_files (walkFiles : List FileEntry) : List String :=
  walkFiles.filterMap (fun e =>
    if pyLower (pathSuffix e.name) ∈ supported_extensions then
      some (osPathJoin e.root e.name)
    else
      none)

/-- Errors raised at enqueue time.  The source raises `ValueError` with a
distinct message at each site; the spec names the two kinds
`DirectoryNotFound` (from `add_directory`) and `FileNotFound`
(from `add_file`). -/
inductive EnqueueError where
  | DirectoryNotFound
  | FileNotFound
deriving DecidableEq

/-- `FileQueueProcessor.add_directory(source_dir, output_dir)`.
Returns the raised error or the function's return value
(`None` — modelled `Option.none` — when no audio files were found,
otherwise `len(audio_files)`), the updated processor state, and the list
of directories `os.makedirs` was asked to create. -/
def add_directory (fs : FileSystem) (s : ProcessorState) (source_dir : String)
    (output_dir : Option String) (now : Rat) :
    Except EnqueueError (Option Nat) × ProcessorState × List String :=
  if fs.pathExists source_dir = false then
    (Except.error EnqueueError.DirectoryNotFound, s, [])
  else
    let out := output_dir.getD default_output_dir
    let audio_files := find_audio_files (fs.walk source_dir)
    if audio_files.isEmpty then
      (Except.ok none, s, [out])
    else
      let items := audio_files.map (fun p =>
        { file_path := p, output_dir := out, added_at := now : WorkItem })
      (Except.ok (some audio_files.length),
       { s with
          queue := s.queue ++ items
          stats := { s.stats with queue_size := s.queue.length + items.length } },
       [out])

/-- `FileQueueProcessor.add_file(file_path, output_dir)`: same shape with a
single enqueued item and no meaningful return value. -/
def add_file (fs : FileSystem) (s : ProcessorState) (file_path : String)
    (output_dir : Option String) (now : Rat) :
    Except EnqueueError Unit × ProcessorState × List String :=
  if fs.pathExists file_path = false then
    (Except.error EnqueueError.FileNotFound, s, [])
  else
    let out := output_dir.getD default_output_dir
    (Except.ok (),
     { s with
        queue := s.queue ++ [{ file_path := file_path, output_dir := out, added_at := now }]
        stats := { s.stats with queue_size := s.queue.length + 1 } },
     [out])

/-- `FileQueueProcessor.start`: a no-op when already running, otherwise
sets `is_running` and spawns the worker thread (the thread itself is the
`runWorker` fold below). -/
def start (s : ProcessorState) : ProcessorState :=
  if s.is_running then s else { s with is_running := true }

/-- `FileQueueProcessor.stop`: clears `is_running` and joins the worker
thread with a 5-second timeout.  The join has no effect on the state. -/
def stop (s : ProcessorState) : ProcessorState :=
  { s with is_running := false }

/-- Results of the external calls `_process_file` makes for one item:
`convResult` is what `convert_to_wav(file_path)` returned (`None` means
conversion failed), `transcribeResult` is the
`(transcription, error)` pair returned by `whisper_service.transcribe`,
`persistRaises` records whether the `_save_transcription` write raised,
and `elapsed` is the item's wall time `time.time() - start_time`. -/
structure ItemEnv where
  convResult : Option String
  transcribeResult : Option String × Option String
  persistRaises : Bool
  elapsed : Rat
deriving DecidableEq

/-- Whether the `try` block of `_process_file` runs to completion: the
converter returned a path, `transcribe` returned no error, the
transcription is neither `None` nor empty after `strip()`, and the save
did not raise.  Any other combination raises inside the `try` and is
caught by the per-item `except` handler. -/
def itemSucceeds (env : ItemEnv) : Bool :=
  match env.convResult with
  | none => false
  | some _ =>
    match env.transcribeResult with
    | (_, some _) => false
    | (none, none) => false
    | (some txt, none) =>
      if pyStrip txt = "" then false else !env.persistRaises

/-- `FileQueueProcessor._process_file(item)`: sets `current_file` to the
item's basename, runs the `try` block, and on either outcome updates the
counters — success also accumulates `elapsed` into `total_time` — before
the `finally` clause clears `current_file`.  The returned value is the
statistics dictionary after the call completes. -/
def process_file (st : Stats) (item : WorkItem) (env : ItemEnv) : Stats :=
  let working := { st with current_file := some (osPathBasename item.file_path) }
  if itemSucceeds env then
    { working with
        total_processed := working.total_processed + 1
        successful_processed := working.successful_processed + 1
        total_time := working.total_time + env.elapsed
        current_file := none }
  else
    { working with
        total_processed := working.total_processed + 1
        failed_processed := working.failed_processed + 1
        current_file := none }

/-- One observable event of the `_process_queue` loop body:
`timeout` is `queue.Empty` from `queue.get(timeout=1.0)` (the loop just
re-checks `is_running`); `item env` is a dequeued item processed through
`_process_file`, whose external calls returned `env`; `escaped` is a
dequeued item on which an exception escapes `_process_file` (for example
a `KeyError` raised before its `try` block on a malformed item dict) and
is caught by the loop's outer `except` handler, which increments only
`failed_processed`. -/
inductive WorkerEvent where
  | timeout
  | item (env : ItemEnv)
  | escaped
deriving DecidableEq

/-- One iteration of the `while self.is_running` loop in
`_process_queue`.  When the flag is cleared the loop exits, so the state
is unchanged.  After a dequeue the loop first caches
`stats['queue_size'] = queue.qsize()`. -/
def process_queue_step (s : ProcessorState) (ev : WorkerEvent) : ProcessorState :=
  if s.is_running then
    match ev with
    | WorkerEvent.timeout => s
    | WorkerEvent.item env =>
      match s.queue with
      | [] => s
      | it :: rest =>
        let cached := { s.stats with queue_size := rest.length }
        { s with queue := rest, stats := process_file cached it env }
    | WorkerEvent.escaped =>
      match s.queue with
      | [] => s
      | _ :: rest =>
        { s with
            queue := rest
            stats := { s.stats with
                        queue_size := rest.length
                        failed_processed := s.stats.failed_processed + 1 } }
  else s

/-- The worker thread observed over a finite sequence of loop events. -/
def runWorker (s : ProcessorState) (evs : List WorkerEvent) : ProcessorState :=
  evs.foldl process_queue_step s

/-- The consistency invariant claimed for the statistics counters. -/
def statsConsistent (st : Stats) : Prop :=
  st.successful_processed + st.failed_processed = st.total_processed

instance (st : Stats) : Decidable (statsConsistent st) :=
  inferInstanceAs (Decidable (st.successful_processed + st.failed_processed = st.total_processed))

/-- The snapshot dictionary returned by `FileQueueProcessor.get_status`. -/
structure Snapshot where
  is_running : Bool
  queue_size : Nat
  current_file : Option String
  total_processed : Nat
  successful_processed : Nat
  failed_processed : Nat
  total_time : Rat
  average_time : Rat
deriving DecidableEq

/-- `FileQueueProcessor.get_status`: builds and returns the snapshot
unconditionally — the source has no error branch and never consults
whether `start()` was called. -/
def get_status (s : ProcessorState) : Snapshot :=
  { is_running := s.is_running
    queue_size := s.queue.length
    current_file := s.stats.current_file
    total_processed := s.stats.total_processed
    successful_processed := s.stats.successful_processed
    failed_processed := s.stats.failed_processed
    total_time := s.stats.total_time
    average_time :=
      if 0 < s.stats.total_processed then
        s.stats.total_time / (s.stats.total_processed : Rat)
      else 0 }

/-- A transcription output file as written by `_save_transcription`. -/
structure OutputFile where
  path : String
  content : String
deriving DecidableEq

/-- The `"=" * 60` separator line. -/
def sep60 : String := (List.replicate 60 '=').asString

/-- `FileQueueProcessor._save_transcription(file_path, transcription,
output_dir)`: derives `name_transcription.txt` from the source basename
and writes the header lines, the separator, a blank line, and the
transcription text.  `now` stands for the formatted
`datetime.now()` timestamp. -/
def save_transcription (file_path transcription output_dir now : String) :
    OutputFile :=
  let base_name := splitextBase (osPathBasename file_path)
  let output_filename := base_name ++ "_transcription.txt"
  { path := osPathJoin output_dir output_filename
    content :=
      "Source: " ++ file_path ++ "\n" ++
      "Processed: " ++ now ++ "\n" ++
      "Service: Faster-Whisper Queue Processor\n" ++
      sep60 ++ "\n\n" ++
      transcription }

/-- The `self.stats` dictionary of `FastWhisperService.__init__`. -/
structure WhisperStats where
  total_processed : Nat
  total_time : Rat
  errors : Nat
  average_time : Rat
deriving DecidableEq

/-- The mutable state of the `FastWhisperService` singleton: the loaded
model handle (`None` until a load succeeds), the `_loading` flag, and the
service statistics. -/
structure WhisperState where
  model : Option Nat
  loading : Bool
  stats : WhisperStats
deriving DecidableEq

/-- A freshly constructed `FastWhisperService`. -/
def initWhisper : WhisperState :=
  { model := none
    loading := false
    stats := { total_processed := 0, total_time := 0, errors := 0, average_time := 0 } }

/-- `FastWhisperService._load_model`.  `available` is the
`FASTER_WHISPER_AVAILABLE` import flag; `attempt` is the result of the
`WhisperModel(...)` construction the call would perform: a handle on
success, `none` if the constructor raised.  When a model is already
loaded the call returns `True` without attempting anything; when another
load is in flight (`loading`) the caller waits and then reports whether a
model is present; a failed construction stores `None` back into
`self.model` and returns `False`, and the `finally` clause clears
`_loading` in every attempting branch. -/
def load_model (s : WhisperState) (available : Bool) (attempt : Option Nat) :
    Bool × WhisperState :=
  match s.model with
  | some _ => (true, s)
  | none =>
    if available = false then (false, s)
    else if s.loading then (false, s)
    else
      match attempt with
      | some m => (true, { s with model := some m, loading := false })
      | none => (false, { s with model := none, loading := false })

/-- One text segment emitted by the opaque inference call. -/
structure Segment where
  text : String
deriving DecidableEq

/-- The segment-collection loop of `FastWhisperService.transcribe`:
`transcription += segment.text + " "` over all segments. -/
def joinSegments (segs : List Segment) : String :=
  segs.foldl (fun acc sg => acc ++ sg.text ++ " ") ""

/-- `FastWhisperService.transcribe(file_path, language)`.  `available` and
`attempt` feed the internal `_load_model` call; `inference` is what
`self.model.transcribe(...)` produced — the emitted segments, or the
message of the exception it raised; `elapsed` is
`time.time() - start_time`.  Returns the `(transcription, error)` pair
and the updated service state. -/
def transcribe (s : WhisperState) (available : Bool) (attempt : Option Nat)
    (inference : Except String (List Segment)) (elapsed : Rat) :
    (Option String × Option String) × WhisperState :=
  let loaded := load_model s available attempt
  if loaded.1 = false then
    ((none, some "Model not available"), loaded.2)
  else
    match inference with
    | Except.ok segs =>
      let s1 := loaded.2
      let total := s1.stats.total_processed + 1
      let time := s1.stats.total_time + elapsed
      ((some (pyStrip (joinSegments segs)), none),
       { s1 with stats :=
          { total_processed := total
            total_time := time
            errors := s1.stats.errors
            average_time := time / (total : Rat) } })
    | Except.error e =>
      ((none, some e),
       { loaded.2 with stats :=
          { loaded.2.stats with errors := loaded.2.stats.errors + 1 } })

/-- Number of items in an environment list on which `_process_file`
completes its `try` block. -/
def countSuccess : List ItemEnv → Nat
  | [] => 0
  | e :: es => (if itemSucceeds e then 1 else 0) + countSuccess es

/-- Number of items in an environment list on which `_process_file`
takes its `except` branch. -/
def countFailure : List ItemEnv → Nat
  | [] => 0
  | e :: es => (if itemSucceeds e then 0 else 1) + countFailure es

/-- Total wall time of the successful items in an environment list. -/
def sumSuccessElapsed : List ItemEnv → Rat
  | [] => 0
  | e :: es => (if itemSucceeds e then e.elapsed else 0) + sumSuccessElapsed es

theorem process_file_fields (st : Stats) (it : WorkItem) (env : ItemEnv) :
    (process_file st it env).total_processed = st.total_processed + 1 ∧
    (process_file st it env).successful_processed
      = st.successful_processed + (if itemSucceeds env then 1 else 0) ∧
    (process_file st it env).failed_processed
      = st.failed_processed + (if itemSucceeds env then 0 else 1) ∧
    (process_file st it env).total_time
      = st.total_time + (if itemSucceeds env then env.elapsed else 0) ∧
    (process_file st it env).current_file = none := by
  by_cases h : itemSucceeds env <;> simp [process_file, h]

theorem step_item (s : ProcessorState) (it : WorkItem) (rest : List WorkItem)
    (env : ItemEnv) (hrun : s.is_running = true) (hq : s.queue = it :: rest) :
    process_queue_step s (WorkerEvent.item env) =
      { s with
          queue := rest
          stats := process_file { s.stats with queue_size := rest.length } it env } := by
  simp [process_queue_step, hrun, hq]

theorem runWorker_items_spec (envs : List ItemEnv) :
    ∀ s : ProcessorState, s.is_running = true → s.queue.length = envs.length →
    (runWorker s (envs.map WorkerEvent.item)).is_running = true ∧
    (runWorker s (envs.map WorkerEvent.item)).queue = [] ∧
    (runWorker s (envs.map WorkerEvent.item)).stats.total_processed
      = s.stats.total_processed + envs.length ∧
    (runWorker s (envs.map WorkerEvent.item)).stats.successful_processed
      = s.stats.successful_processed + countSuccess envs ∧
    (runWorker s (envs.map WorkerEvent.item)).stats.failed_processed
      = s.stats.failed_processed + countFailure envs ∧
    (runWorker s (envs.map WorkerEvent.item)).stats.total_time
      = s.stats.total_time + sumSuccessElapsed envs := by
  induction envs with
  | nil =>
    intro s hrun hlen
    have hq : s.queue = [] := List.length_eq_zero.mp (by simpa using hlen)
    refine ⟨hrun, hq, ?_, ?_, ?_, ?_⟩ <;>
      simp [runWorker, countSuccess, countFailure, sumSuccessElapsed]
  | cons e es ih =>
    intro s hrun hlen
    match hq : s.queue with
    | [] => simp [hq] at hlen
    | it :: rest =>
      have hlen' : rest.length = es.length := by
        simpa [hq] using hlen
      have hstep := step_item s it rest e hrun hq
      have hfold : runWorker s ((e :: es).map WorkerEvent.item)
          = runWorker (process_queue_step s (WorkerEvent.item e)) (es.map WorkerEvent.item) := by
        simp [runWorker]
      have hpf := process_file_fields { s.stats with queue_size := rest.length } it e
      have hrun1 : (process_queue_step s (WorkerEvent.item e)).is_running = true := by
        rw [hstep]; exact hrun
      have hq1 : (process_queue_step s (WorkerEvent.item e)).queue.length = es.length := by
        rw [hstep]; exact hlen'
      obtain ⟨i1, i2, i3, i4, i5, i6⟩ := ih (process_queue_step s (WorkerEvent.item e)) hrun1 hq1
      rw [hfold]
      refine ⟨i1, i2, ?_, ?_, ?_, ?_⟩
      · rw [i3, hstep]
        simp [hpf.1]
        omega
      · rw [i4, hstep]
        simp [hpf.2.1, countSuccess]
        omega
      · rw [i5, hstep]
        simp [hpf.2.2.1, countFailure]
        omega
      · rw [i6, hstep]
        simp [hpf.2.2.2.1, sumSuccessElapsed]
        ring

theorem step_preserves_consistent (s : ProcessorState) (ev : WorkerEvent)
    (hev : ev ≠ WorkerEvent.escaped) (h : statsConsistent s.stats) :
    statsConsistent (process_queue_step s ev).stats := by
  unfold statsConsistent at h ⊢
  by_cases hr : s.is_running
  · cases ev with
    | timeout => simpa [process_queue_step, hr] using h
    | escaped => exact absurd rfl hev
    | item env =>
      match hq : s.queue with
      | [] => simpa [process_queue_step, hr, hq] using h
      | it :: rest =>
        rw [step_item s it rest env hr hq]
        have hpf := process_file_fields { s.stats with queue_size := rest.length } it env
        by_cases hsucc : itemSucceeds env <;>
          simp [hpf.1, hpf.2.1, hpf.2.2.1, hsucc] <;> omega
  · simpa [process_queue_step, hr] using h

theorem runWorker_preserves_consistent (evs : List WorkerEvent) :
    ∀ s : ProcessorState, (∀ ev ∈ evs, ev ≠ WorkerEvent.escaped) →
      statsConsistent s.stats → statsConsistent (runWorker s evs).stats := by
  induction evs with
  | nil => intro s _ h; simpa [runWorker] using h
  | cons ev evs ih =>
    intro s hev h
    have h1 := step_preserves_consistent s ev (hev ev (List.mem_cons_self ev evs)) h
    have hfold : runWorker s (ev :: evs) = runWorker (process_queue_step s ev) evs := by
      simp [runWorker]
    rw [hfold]
    exact ih _ (fun e he => hev e (List.mem_cons_of_mem ev he)) h1

/-- A queued work item used in concrete scenarios. -/
def demoItem : WorkItem :=
  { file_path := "/audio/a.wav", output_dir := "/out", added_at := 0 }

/-- A second queued work item used in concrete scenarios. -/
def demoItem2 : WorkItem :=
  { file_path := "/audio/b.mp3", output_dir := "/out", added_at := 0 }

/-- An item whose external calls all succeed, taking 5 seconds. -/
def envOk : ItemEnv :=
  { convResult := some "/tmp/a.wav"
    transcribeResult := (some " hello ", none)
    persistRaises := false
    elapsed := 5 }

/-- An item on which `convert_to_wav` returns `None` (conversion failure),
taking 3 seconds. -/
def envConvFail : ItemEnv :=
  { convResult := none
    transcribeResult := (none, none)
    persistRaises := false
    elapsed := 3 }

/-- A running processor holding one pending item and fresh statistics. -/
def demoRunning1 : ProcessorState :=
  { queue := [demoItem], is_running := true, stats := initStats }

/-- A running processor holding two pending items and fresh statistics. -/
def demoRunning2 : ProcessorState :=
  { queue := [demoItem, demoItem2], is_running := true, stats := initStats }

/-- Claim C1 (amended): after every completed item that is handled by
`_process_file`'s own `try`/`except` — that is, along any event sequence
in which no exception escapes `_process_file` into the loop's outer
handler — the statistics satisfy
`successful_processed + failed_processed = total_processed`. -/
theorem claim1_stats_invariant (s : ProcessorState) (evs : List WorkerEvent)
    (hnoesc : ∀ ev ∈ evs, ev ≠ WorkerEvent.escaped)
    (h : statsConsistent s.stats) :
    statsConsistent (runWorker s evs).stats :=
  runWorker_preserves_consistent evs s hnoesc h

/-- Witness for C1: a run of one successful item, one failed item and a
queue timeout keeps the counters consistent. -/
theorem claim1_stats_invariant_witness :
    (∀ ev ∈ [WorkerEvent.item envOk, WorkerEvent.item envConvFail, WorkerEvent.timeout],
        ev ≠ WorkerEvent.escaped) ∧
    statsConsistent demoRunning2.stats ∧
    statsConsistent (runWorker demoRunning2
      [WorkerEvent.item envOk, WorkerEvent.item envConvFail, WorkerEvent.timeout]).stats :=
  ⟨by decide, by decide,
   claim1_stats_invariant demoRunning2
     [WorkerEvent.item envOk, WorkerEvent.item envConvFail, WorkerEvent.timeout]
     (by decide) (by decide)⟩

/-- Counterexample for C1 as stated: when an exception escapes
`_process_file` into `_process_queue`'s outer `except` handler
(lines 145–147), that handler increments only `failed_processed`, so the
three counters are left inconsistent
(`failed_processed = 1` while `total_processed = 0`). -/
theorem claim1_escape_counterexample :
    ¬ statsConsistent (runWorker demoRunning1 [WorkerEvent.escaped]).stats := by
  decide

/-- Claim C2 (amended): over any fully drained run, `total_time`
accumulates the elapsed wall time of the successful items only — a failed
item contributes nothing to `total_time`, although it does increment
`total_processed`, so the derived average divides success-only time by a
count that includes failures. -/
theorem claim2_time_accumulates_only_on_success (s : ProcessorState)
    (envs : List ItemEnv) (hrun : s.is_running = true)
    (hlen : s.queue.length = envs.length) :
    (runWorker s (envs.map WorkerEvent.item)).stats.total_time
      = s.stats.total_time + sumSuccessElapsed envs ∧
    (runWorker s (envs.map WorkerEvent.item)).stats.total_processed
      = s.stats.total_processed + envs.length := by
  obtain ⟨_, _, h3, _, _, h6⟩ := runWorker_items_spec envs s hrun hlen
  exact ⟨h6, h3⟩

theorem itemSucceeds_envOk : itemSucceeds envOk = true := by decide

theorem itemSucceeds_envConvFail : itemSucceeds envConvFail = false := by decide

/-- Witness for C2 (amended): a success of 5 seconds followed by a failure
of 3 seconds leaves `total_time = 5` (only the success counted) while
`total_processed = 2`. -/
theorem claim2_witness :
    demoRunning2.is_running = true ∧
    demoRunning2.queue.length = [envOk, envConvFail].length ∧
    sumSuccessElapsed [envOk, envConvFail] = 5 ∧
    ((runWorker demoRunning2 ([envOk, envConvFail].map WorkerEvent.item)).stats.total_time
        = demoRunning2.stats.total_time + sumSuccessElapsed [envOk, envConvFail] ∧
     (runWorker demoRunning2 ([envOk, envConvFail].map WorkerEvent.item)).stats.total_processed
        = demoRunning2.stats.total_processed + [envOk, envConvFail].length) :=
  ⟨rfl, rfl,
   by
     simp only [sumSuccessElapsed, itemSucceeds_envOk, itemSucceeds_envConvFail,
       ite_true, ite_false]
     norm_num [envOk],
   claim2_time_accumulates_only_on_success demoRunning2 [envOk, envConvFail] rfl rfl⟩

/-- Counterexample for C2 as stated: a conversion-failure item with a
3-second elapsed time completes (`total_processed` becomes 1) yet adds
nothing to `total_time` — the accumulator does not increase on a failed
item, contrary to the claim. -/
theorem claim2_failed_item_counterexample :
    envConvFail.elapsed = 3 ∧
    itemSucceeds envConvFail = false ∧
    (process_file initStats demoItem envConvFail).total_processed = 1 ∧
    (process_file initStats demoItem envConvFail).total_time = initStats.total_time := by
  refine ⟨by decide, by decide, by decide, by decide⟩

/-- Five pending items, matching the spec's resilience scenario. -/
def fiveState : ProcessorState :=
  { queue := [demoItem, demoItem2, demoItem, demoItem2, demoItem]
    is_running := true
    stats := initStats }

/-- Item environments for the resilience scenario: items 2 and 4 fail
conversion, the rest succeed. -/
def fiveEnvs : List ItemEnv := [envOk, envConvFail, envOk, envConvFail, envOk]

/-- Claim C5: item-time errors never terminate the worker loop — after a
running worker drains any finite queue of items, every item has been
processed (`total_processed` grew by the item count and the queue is
empty), `successful_processed`/`failed_processed` grew by exactly the
number of succeeding/failing items, and `is_running` is still `true`. -/
theorem claim5_failures_never_stop_worker (s : ProcessorState)
    (envs : List ItemEnv) (hrun : s.is_running = true)
    (hlen : s.queue.length = envs.length) :
    (runWorker s (envs.map WorkerEvent.item)).is_running = true ∧
    (runWorker s (envs.map WorkerEvent.item)).queue = [] ∧
    (runWorker s (envs.map WorkerEvent.item)).stats.total_processed
      = s.stats.total_processed + envs.length ∧
    (runWorker s (envs.map WorkerEvent.item)).stats.successful_processed
      = s.stats.successful_processed + countSuccess envs ∧
    (runWorker s (envs.map WorkerEvent.item)).stats.failed_processed
      = s.stats.failed_processed + countFailure envs := by
  obtain ⟨h1, h2, h3, h4, h5, _⟩ := runWorker_items_spec envs s hrun hlen
  exact ⟨h1, h2, h3, h4, h5⟩

/-- Witness for C5: the spec's scenario — 5 items with items 2 and 4
failing conversion — yields 3 successes, 2 failures, an empty queue and a
still-running worker. -/
theorem claim5_witness :
    fiveState.is_running = true ∧
    fiveState.queue.length = fiveEnvs.length ∧
    countSuccess fiveEnvs = 3 ∧
    countFailure fiveEnvs = 2 ∧
    ((runWorker fiveState (fiveEnvs.map WorkerEvent.item)).is_running = true ∧
     (runWorker fiveState (fiveEnvs.map WorkerEvent.item)).queue = [] ∧
     (runWorker fiveState (fiveEnvs.map WorkerEvent.item)).stats.total_processed
        = fiveState.stats.total_processed + fiveEnvs.length ∧
     (runWorker fiveState (fiveEnvs.map WorkerEvent.item)).stats.successful_processed
        = fiveState.stats.successful_processed + countSuccess fiveEnvs ∧
     (runWorker fiveState (fiveEnvs.map WorkerEvent.item)).stats.failed_processed
        = fiveState.stats.failed_processed + countFailure fiveEnvs) :=
  ⟨rfl, rfl, by decide, by decide,
   claim5_failures_never_stop_worker fiveState fiveEnvs rfl rfl⟩

/-- A mid-life processor: two pending items and nonzero statistics. -/
def midState : ProcessorState :=
  { queue := [demoItem, demoItem2]
    is_running := true
    stats := { total_processed := 4, successful_processed := 3, failed_processed := 1,
               total_time := 7, current_file := none, queue_size := 2 } }

/-- Claim C10: `stop` only clears the running flag (and joins the thread,
which touches no state): the pending queue keeps its FIFO contents and
every statistics field is unchanged; a later `start` restores the running
flag with the queue still intact, after which draining it processes
exactly the retained items. -/
theorem claim10_stop_frame (s : ProcessorState) (envs : List ItemEnv)
    (hlen : s.queue.length = envs.length) :
    (stop s).queue = s.queue ∧
    (stop s).stats = s.stats ∧
    (stop s).is_running = false ∧
    (start (stop s)).queue = s.queue ∧
    (start (stop s)).stats = s.stats ∧
    (start (stop s)).is_running = true ∧
    (runWorker (start (stop s)) (envs.map WorkerEvent.item)).queue = [] ∧
    (runWorker (start (stop s)) (envs.map WorkerEvent.item)).stats.total_processed
      = s.stats.total_processed + envs.length := by
  have hst : start (stop s) = { s with is_running := true } := by
    simp [start, stop]
  have hrun : (start (stop s)).is_running = true := by rw [hst]
  have hq : (start (stop s)).queue.length = envs.length := by rw [hst]; exact hlen
  obtain ⟨_, h2, h3, _, _, _⟩ := runWorker_items_spec envs (start (stop s)) hrun hq
  refine ⟨rfl, rfl, rfl, by rw [hst], by rw [hst], hrun, h2, ?_⟩
  rw [h3, hst]

/-- Witness for C10: stopping the mid-life processor changes nothing but
the flag; restarting and draining processes the two retained items. -/
theorem claim10_witness :
    midState.queue.length = [envOk, envConvFail].length ∧
    ((stop midState).queue = midState.queue ∧
     (stop midState).stats = midState.stats ∧
     (stop midState).is_running = false ∧
     (start (stop midState)).queue = midState.queue ∧
     (start (stop midState)).stats = midState.stats ∧
     (start (stop midState)).is_running = true ∧
     (runWorker (start (stop midState)) ([envOk, envConvFail].map WorkerEvent.item)).queue
        = [] ∧
     (runWorker (start (stop midState))
        ([envOk, envConvFail].map WorkerEvent.item)).stats.total_processed
        = midState.stats.total_processed + [envOk, envConvFail].length) :=
  ⟨rfl, claim10_stop_frame midState [envOk, envConvFail] rfl⟩

/-- Claim C4: a nonexistent root makes `add_directory` fail with
`DirectoryNotFound` before anything else happens — nothing is enqueued,
the state is unchanged and no output directory is created; likewise a
nonexistent path makes `add_file` fail with `FileNotFound`.  Both errors
are raised straight to the immediate caller. -/
theorem claim4_missing_paths_fail_fast (fs : FileSystem) (s : ProcessorState)
    (src p : String) (out : Option String) (now : Rat) :
    (fs.pathExists src = false →
      add_directory fs s src out now
        = (Except.error EnqueueError.DirectoryNotFound, s, [])) ∧
    (fs.pathExists p = false →
      add_file fs s p out now
        = (Except.error EnqueueError.FileNotFound, s, [])) := by
  constructor
  · intro h; simp [add_directory, h]
  · intro h; simp [add_file, h]

/-- A filesystem on which no path exists. -/
def noFs : FileSystem := { pathExists := fun _ => false, walk := fun _ => [] }

/-- Witness for C4: on a filesystem without the paths, both enqueue calls
fail with their respective error and leave the fresh state untouched. -/
theorem claim4_witness :
    noFs.pathExists "/no/such/path" = false ∧
    add_directory noFs initState "/no/such/path" none 0
      = (Except.error EnqueueError.DirectoryNotFound, initState, []) ∧
    add_file noFs initState "/no/such/file.wav" none 0
      = (Except.error EnqueueError.FileNotFound, initState, []) :=
  ⟨rfl,
   (claim4_missing_paths_fail_fast noFs initState "/no/such/path" "/no/such/file.wav"
      none 0).1 rfl,
   (claim4_missing_paths_fail_fast noFs initState "/no/such/path" "/no/such/file.wav"
      none 0).2 rfl⟩

/-- Claim C3 (amended): on an existing root, `add_directory` resolves the
output directory, creates it, and enqueues one `WorkItem` per discovered
file whose case-insensitive extension is supported; when at least one
file matched it returns their count, but when no file matched it enqueues
nothing and returns no count at all (Python `None` from the bare
`return` on line 76), not the integer 0. -/
theorem claim3_add_directory_count (fs : FileSystem) (s : ProcessorState)
    (src : String) (out : Option String) (now : Rat)
    (hex : fs.pathExists src = true) :
    (find_audio_files (fs.walk src) = [] →
       add_directory fs s src out now
         = (Except.ok none, s, [out.getD default_output_dir])) ∧
    (find_audio_files (fs.walk src) ≠ [] →
       add_directory fs s src out now
         = (Except.ok (some (find_audio_files (fs.walk src)).length),
            { s with
               queue := s.queue ++ (find_audio_files (fs.walk src)).map (fun p =>
                 { file_path := p
                   output_dir := out.getD default_output_dir
                   added_at := now })
               stats := { s.stats with queue_size :=
                 s.queue.length + (find_audio_files (fs.walk src)).length } },
            [out.getD default_output_dir])) := by
  constructor
  · intro h
    simp [add_directory, hex, h]
  · intro h
    rcases hfa : find_audio_files (fs.walk src) with _ | ⟨a, as⟩
    · exact absurd hfa h
    · simp [add_directory, hex, hfa]

/-- A filesystem holding a single matching file with an upper-case
extension under `/audio`. -/
def oneFileFs : FileSystem :=
  { pathExists := fun p => p == "/audio"
    walk := fun p =>
      if p == "/audio" then [{ root := "/audio", name := "x.WAV" }] else [] }

/-- Witness for C3 (amended): scanning `/audio` finds the one `.WAV` file
(case-insensitively), enqueues one item for it with the default output
directory, and returns the count 1. -/
theorem claim3_witness :
    oneFileFs.pathExists "/audio" = true ∧
    find_audio_files (oneFileFs.walk "/audio") ≠ [] ∧
    add_directory oneFileFs initState "/audio" none 0
      = (Except.ok (some 1),
         { queue := [{ file_path := "/audio/x.WAV", output_dir := "./output",
                       added_at := 0 }]
           is_running := false
           stats := { initStats with queue_size := 1 } },
         ["./output"]) := by
  refine ⟨rfl, by decide, ?_⟩
  have h := (claim3_add_directory_count oneFileFs initState "/audio" none 0 rfl).2
    (by decide)
  rw [h]
  rfl

/-- A filesystem with an existing directory `/tmp/empty` holding no
matching audio files. -/
def emptyDirFs : FileSystem :=
  { pathExists := fun p => p == "/tmp/empty", walk := fun _ => [] }

/-- Counterexample for C3 as stated: `add_directory` on an existing
directory with no matching files enqueues nothing, but its return value
is `None` (the bare `return` on line 76), not the integer count 0. -/
theorem claim3_empty_dir_counterexample :
    (add_directory emptyDirFs initState "/tmp/empty" none 0).1 = Except.ok none ∧
    (add_directory emptyDirFs initState "/tmp/empty" none 0).1 ≠ Except.ok (some 0) ∧
    (add_directory emptyDirFs initState "/tmp/empty" none 0).2.1.queue = [] := by
  refine ⟨rfl, ?_, by decide⟩
  intro h
  have h0 : (Except.ok none : Except EnqueueError (Option Nat)) = Except.ok (some 0) := by
    calc (Except.ok none : Except EnqueueError (Option Nat))
        = (add_directory emptyDirFs initState "/tmp/empty" none 0).1 := rfl
      _ = Except.ok (some 0) := h
  simp at h0

/-- Claim C6: a failed model load is not cached as broken — after a load
attempt fails, the model slot is still `None` and the loading flag is
clear, so the next `_load_model` call attempts again, and a succeeding
attempt installs the model and returns `True`. -/
theorem claim6_failed_load_not_cached (s : WhisperState)
    (hm : s.model = none) (hl : s.loading = false) :
    (load_model s true none).1 = false ∧
    (load_model s true none).2.model = none ∧
    (load_model s true none).2.loading = false ∧
    (∀ m : Nat, (load_model (load_model s true none).2 true (some m)).1 = true ∧
       (load_model (load_model s true none).2 true (some m)).2.model = some m) := by
  have h1 : load_model s true none = (false, { s with model := none, loading := false }) := by
    simp [load_model, hm, hl]
  refine ⟨by rw [h1], by rw [h1], by rw [h1], ?_⟩
  intro m
  rw [h1]
  constructor <;> simp [load_model]

/-- Witness for C6: from the fresh service, a failed load leaves the
model unloaded, and a following successful attempt (handle 7) loads it
and reports `True`. -/
theorem claim6_witness :
    initWhisper.model = none ∧
    initWhisper.loading = false ∧
    (load_model initWhisper true none).1 = false ∧
    (load_model initWhisper true none).2.model = none ∧
    (load_model (load_model initWhisper true none).2 true (some 7)).1 = true ∧
    (load_model (load_model initWhisper true none).2 true (some 7)).2.model = some 7 := by
  have h := claim6_failed_load_not_cached initWhisper rfl rfl
  exact ⟨rfl, rfl, h.1, h.2.1, (h.2.2.2 7).1, (h.2.2.2 7).2⟩

/-- Claim C7 (amended): `get_status` never fails — it builds its snapshot
unconditionally whether or not `start()` has run.  After `start` the
snapshot reports `is_running = true`; after `stop`, and on the fresh
engine before any `start`, it reports `is_running = false` instead of
raising any `EngineNotStarted` error. -/
theorem claim7_get_status_total (s : ProcessorState) :
    (get_status (start s)).is_running = true ∧
    (get_status (stop s)).is_running = false ∧
    (get_status initState).is_running = false := by
  refine ⟨?_, rfl, rfl⟩
  by_cases h : s.is_running <;> simp [get_status, start, h]

/-- Counterexample for C7 as stated: a status query on the fresh,
never-started processor does not fail — `get_status` has no error branch
at all — it returns an ordinary snapshot with `is_running = false`. -/
theorem claim7_before_start_counterexample :
    get_status initState
      = { is_running := false, queue_size := 0, current_file := none,
          total_processed := 0, successful_processed := 0,
          failed_processed := 0, total_time := 0, average_time := 0 } := by
  rfl

/-- Claim C8: for a source file `name.ext` the saved output is the single
file `outputDir/name_transcription.txt` whose content is, in order, the
`Source:` line with the source path, the `Processed:` timestamp line, the
fixed service-identifier line, the 60-character `=` separator line, a
blank line, and the transcription text verbatim; in particular
`speech.wav` written to `/out` yields `/out/speech_transcription.txt`,
the content starts with `Source:` and the text after the separator and
blank line is exactly the transcription. -/
theorem claim8_output_format (file_path transcription output_dir now : String) :
    (save_transcription file_path transcription output_dir now).path
      = osPathJoin output_dir
          (splitextBase (osPathBasename file_path) ++ "_transcription.txt") ∧
    (save_transcription file_path transcription output_dir now).content
      = "Source: " ++ file_path ++ "\n" ++
        "Processed: " ++ now ++ "\n" ++
        "Service: Faster-Whisper Queue Processor\n" ++
        sep60 ++ "\n\n" ++ transcription ∧
    (∃ rest, (save_transcription file_path transcription output_dir now).content
        = "Source:" ++ rest) ∧
    (∃ header, (save_transcription file_path transcription output_dir now).content
        = header ++ ("\n\n" ++ transcription)) ∧
    (save_transcription "/in/speech.wav" transcription "/out" now).path
      = "/out/speech_transcription.txt" := by
  refine ⟨rfl, rfl, ?_, ?_, rfl⟩
  · refine ⟨" " ++ file_path ++ "\n" ++ "Processed: " ++ now ++ "\n" ++
      "Service: Faster-Whisper Queue Processor\n" ++ sep60 ++ "\n\n" ++ transcription, ?_⟩
    simp only [save_transcription,
      show ("Source: " : String) = "Source:" ++ " " from by decide,
      String.append_assoc]
  · refine ⟨"Source: " ++ file_path ++ "\n" ++ "Processed: " ++ now ++ "\n" ++
      "Service: Faster-Whisper Queue Processor\n" ++ sep60, ?_⟩
    simp only [save_transcription, String.append_assoc]

/-- A whisper service whose model is loaded (handle 0) and whose
statistics are fresh. -/
def demoWhisper : WhisperState :=
  { model := some 0
    loading := false
    stats := { total_processed := 0, total_time := 0, errors := 0, average_time := 0 } }

/-- Segments as the inference layer emits them, each text with a leading
space. -/
def demoSegs : List Segment := [{ text := " hi" }, { text := " there" }]

/-- Claim C9: with the model loaded, a successful `transcribe` returns
the stripped concatenation of the emitted segment texts and advances
`total_processed`, `total_time` and the derived `average_time`, leaving
`errors` alone; a failing inference returns the error, increments only
`errors`, and leaves `total_processed`, `total_time` and `average_time`
unchanged. -/
theorem claim9_transcribe_stats (s : WhisperState) (m : Nat)
    (available : Bool) (attempt : Option Nat)
    (segs : List Segment) (e : String) (elapsed : Rat)
    (hm : s.model = some m) :
    (transcribe s available attempt (Except.ok segs) elapsed).1
      = (some (pyStrip (joinSegments segs)), none) ∧
    (transcribe s available attempt (Except.ok segs) elapsed).2.stats.total_processed
      = s.stats.total_processed + 1 ∧
    (transcribe s available attempt (Except.ok segs) elapsed).2.stats.total_time
      = s.stats.total_time + elapsed ∧
    (transcribe s available attempt (Except.ok segs) elapsed).2.stats.average_time
      = (s.stats.total_time + elapsed) / ((s.stats.total_processed + 1 : Nat) : Rat) ∧
    (transcribe s available attempt (Except.ok segs) elapsed).2.stats.errors
      = s.stats.errors ∧
    (transcribe s available attempt (Except.error e) elapsed).1 = (none, some e) ∧
    (transcribe s available attempt (Except.error e) elapsed).2.stats.errors
      = s.stats.errors + 1 ∧
    (transcribe s available attempt (Except.error e) elapsed).2.stats.total_processed
      = s.stats.total_processed ∧
    (transcribe s available attempt (Except.error e) elapsed).2.stats.total_time
      = s.stats.total_time ∧
    (transcribe s available attempt (Except.error e) elapsed).2.stats.average_time
      = s.stats.average_time := by
  have hl : load_model s available attempt = (true, s) := by
    rcases hs : s.model with _ | m'
    · rw [hs] at hm; exact absurd hm (by simp)
    · simp [load_model, hs]
  refine ⟨?_, ?_, ?_, ?_, ?_, ?_, ?_, ?_, ?_, ?_⟩ <;> simp [transcribe, hl]

/-- Witness for C9: on the loaded demo service, transcribing the two demo
segments in 2 seconds returns the stripped join (note the two interior
spaces: each segment text keeps its leading space and the loop appends a
trailing one), with totals 1 and 2 and average 2; a failing inference
only bumps `errors`. -/
theorem claim9_witness :
    demoWhisper.model = some 0 ∧
    (transcribe demoWhisper true none (Except.ok demoSegs) 2).1
      = (some "hi  there", none) ∧
    (transcribe demoWhisper true none (Except.ok demoSegs) 2).2.stats.total_processed
      = 1 ∧
    (transcribe demoWhisper true none (Except.ok demoSegs) 2).2.stats.total_time = 2 ∧
    (transcribe demoWhisper true none (Except.error "boom") 2).1 = (none, some "boom") ∧
    (transcribe demoWhisper true none (Except.error "boom") 2).2.stats.errors = 1 ∧
    (transcribe demoWhisper true none (Except.error "boom") 2).2.stats.total_processed
      = 0 := by
  have h := claim9_transcribe_stats demoWhisper 0 true none demoSegs "boom" 2 rfl
  refine ⟨rfl, ?_, ?_, ?_, ?_, ?_, ?_⟩
  · rw [h.1]; decide
  · rw [h.2.1]; decide
  · rw [h.2.2.1]; norm_num [demoWhisper]
  · exact h.2.2.2.2.2.1
  · rw [h.2.2.2.2.2.2.1]; decide
  · rw [h.2.2.2.2.2.2.2.1]; decide

end SpToTxt
